import Mathlib

/-!
Verification of the naive_bayes repository (src/bayes.rs, src/oldbayes.rs).

The embedding works on parsed CSV rows: a row is its list of string cells.
CSV reading/writing itself (the csv crate) is external glue; the embedding
starts from the sequences of records the reader yields, exactly as the
Rust code consumes them.  Rust f64 arithmetic is modelled over ℚ.
-/

namespace NaiveBayes

/-- Model of Rust str::trim: remove leading and trailing whitespace. -/
def strTrim (s : String) : String :=
  ⟨((s.data.dropWhile Char.isWhitespace).reverse.dropWhile Char.isWhitespace).reverse⟩

/-- A CSV record: its list of string cells. -/
abbrev Row := List String

/-- The symptom set a training record contributes (bayes.rs lines 26-33):
every cell after the label that is non-empty as given is trimmed and
inserted into a per-row set. -/
def trainRowSymptoms (cells : List String) : Finset String :=
  ((cells.filter (fun c => ¬ c = "")).map strTrim).toFinset

/-- The symptom set a query record contributes (bayes.rs lines 95-101):
identical loop to the training side. -/
def queryRowSymptoms (cells : List String) : Finset String :=
  ((cells.filter (fun c => ¬ c = "")).map strTrim).toFinset

/-- Normalization as the specification words it: trim every cell, then
drop the tokens that are empty after trimming, then deduplicate. -/
def specRowSymptoms (cells : List String) : Finset String :=
  ((cells.map strTrim).filter (fun c => ¬ c = "")).toFinset

/-- One parsed training record: the disease label (cell 0, used as-is)
together with the row's symptom set; a record with no cells makes
`record.get(0)` fail (bayes.rs line 24). -/
def parseTrainRow (r : Row) : Option (String × Finset String) :=
  match r with
  | [] => none
  | label :: cells => some (label, trainRowSymptoms cells)

/-- `NaiveBayesClassifier::new`, record-collection phase (bayes.rs lines
19-42): parse every record, failing if any lacks its label cell.  The
grouped counts, betas and pis below are all functions of this list. -/
def new (input : List Row) : Option (List (String × Finset String)) :=
  match input with
  | [] => some []
  | r :: rest =>
    match parseTrainRow r, new rest with
    | some tr, some trs => some (tr :: trs)
    | _, _ => none

/-- `num_records` (bayes.rs line 41). -/
def numRecords (rows : List (String × Finset String)) : ℕ := rows.length

/-- `all_symptoms` (bayes.rs line 32): union of every row's symptom set. -/
def allSymptoms (rows : List (String × Finset String)) : Finset String :=
  rows.foldl (fun acc r => acc ∪ r.2) ∅

/-- `diseases_map` (bayes.rs lines 35-39): the symptom sets of the rows
labeled `d`, in input order. -/
def diseasesMap (rows : List (String × Finset String)) (d : String) :
    List (Finset String) :=
  (rows.filter (fun r => r.1 = d)).map Prod.snd

/-- The distinct disease labels, i.e. the key set of `diseases_map`. -/
def diseaseLabels (rows : List (String × Finset String)) : List String :=
  (rows.map Prod.fst).dedup

/-- `num_symptoms` (bayes.rs lines 50-53): fold summing the symptom-set
sizes of disease `d`'s rows. -/
def numSymptoms (rows : List (String × Finset String)) (d : String) : ℕ :=
  (diseasesMap rows d).foldl (fun acc symptoms => acc + symptoms.card) 0

/-- `num_symptom` (bayes.rs lines 59-65): fold counting the rows of
disease `d` whose symptom set contains `s`. -/
def numSymptom (rows : List (String × Finset String)) (d s : String) : ℕ :=
  (diseasesMap rows d).foldl
    (fun acc symptoms => if s ∈ symptoms then acc + 1 else acc) 0

/-- `beta` (bayes.rs line 67). -/
def beta (rows : List (String × Finset String)) (d s : String) : ℚ :=
  ((numSymptom rows d s : ℚ) + 1) /
    ((numSymptoms rows d : ℚ) + ((allSymptoms rows).card : ℚ))

/-- `pi` (bayes.rs line 77). -/
def pi (rows : List (String × Finset String)) (d : String) : ℚ :=
  ((diseasesMap rows d).length : ℚ) / ((numRecords rows : ℚ))

/-- `product_betas` (bayes.rs lines 122-125): the product of `d`'s betas
over the query's symptom set. -/
def productBetas (rows : List (String × Finset String)) (q : Finset String)
    (d : String) : ℚ :=
  ∏ s ∈ q, beta rows d s

/-- `score` (bayes.rs line 128). -/
def score (rows : List (String × Finset String)) (q : Finset String)
    (d : String) : ℚ :=
  pi rows d * productBetas rows q d

/-- The fold of `predict_one` (bayes.rs lines 119-136) over the diseases in
iteration order `l`.  Each step looks every query symptom up in the
disease's beta table, whose key set is `all_symptoms`; a missing key is the
`unwrap` panic, modelled as `none`.  A strictly greater score replaces the
current best. -/
def predictFold (rows : List (String × Finset String)) (q : Finset String) :
    List String → String × ℚ → Option (String × ℚ)
  | [], acc => some acc
  | d :: rest, (bestDisease, bestScore) =>
    if q ⊆ allSymptoms rows then
      predictFold rows q rest
        (if bestScore < score rows q d then (d, score rows q d)
         else (bestDisease, bestScore))
    else none

/-- `predict_one` (bayes.rs lines 118-139): fold over the diseases starting
from `("", -1.0)`, returning the best label. -/
def predictOne (rows : List (String × Finset String)) (order : List String)
    (q : Finset String) : Option String :=
  (predictFold rows q order ("", -1)).map Prod.fst

/-- The record loop of `predict` (bayes.rs lines 92-104): one label per
query record, each from the cells after the unread first cell. -/
def predictAll (rows : List (String × Finset String)) (order : List String) :
    List Row → Option (List String)
  | [] => some []
  | r :: rest =>
    match predictOne rows order (queryRowSymptoms r.tail),
        predictAll rows order rest with
    | some label, some labels => some (label :: labels)
    | _, _ => none

/-- The writer loop of `predict` (bayes.rs lines 110-112): row `i` of the
results (0-based, as `enumerate` yields it) becomes the output pair
`(i + 1, label)`. -/
def writeResults (i : ℕ) : List String → List (ℕ × String)
  | [] => []
  | r :: rest => (i + 1, r) :: writeResults (i + 1) rest

/-- `predict` (bayes.rs lines 88-115), from parsed query records to the
output pairs written after the `ID,Disease` header. -/
def predict (rows : List (String × Finset String)) (order : List String)
    (queries : List Row) : Option (List (ℕ × String)) :=
  (predictAll rows order queries).map (fun results => writeResults 0 results)

end NaiveBayes

namespace OldBayes

/-- `symptom_order` (oldbayes.rs lines 42-46): the vocabulary, sorted. -/
def symptomOrder (rows : List (String × Finset String)) : List String :=
  Finset.sort (· ≤ ·) (NaiveBayes.allSymptoms rows)

/-- `disease_probs` denominator (oldbayes.rs line 64): the sum of the
per-disease row counts. -/
def totalEntries (rows : List (String × Finset String)) : ℚ :=
  ((NaiveBayes.diseaseLabels rows).map
    (fun d => ((NaiveBayes.diseasesMap rows d).length : ℚ))).sum

/-- `disease_probs` (oldbayes.rs lines 60-65). -/
def diseaseProb (rows : List (String × Finset String)) (d : String) : ℚ :=
  ((NaiveBayes.diseasesMap rows d).length : ℚ) / totalEntries rows

/-- `symptom_counts` entry for position `s` (oldbayes.rs lines 124-133):
the number of `d`'s rows whose presence bit for `s` equals the query's. -/
def symptomCount (rows : List (String × Finset String)) (d : String)
    (q : Finset String) (s : String) : ℕ :=
  (NaiveBayes.diseasesMap rows d).foldl
    (fun acc symptoms => if (s ∈ q) ↔ (s ∈ symptoms) then acc + 1 else acc) 0

/-- `prob` (oldbayes.rs lines 136-145): fold over the vocabulary positions,
multiplying in `count / instances` at each query-present position, then
times the disease probability. -/
def prob (rows : List (String × Finset String)) (q : Finset String)
    (d : String) : ℚ :=
  ((symptomOrder rows).foldl
    (fun acc s =>
      if s ∈ q then
        acc * ((symptomCount rows d q s : ℚ) /
          ((NaiveBayes.diseasesMap rows d).length : ℚ))
      else acc) 1) * diseaseProb rows d

/-- `predict_one` (oldbayes.rs lines 112-156): strict-improvement fold over
the diseases in iteration order, starting from `("", -1.0)`.  Unknown query
symptoms have no vocabulary position, so they are silently dropped; the
fold is total. -/
def predictOne (rows : List (String × Finset String)) (order : List String)
    (q : Finset String) : String :=
  (order.foldl
    (fun acc d => if acc.2 < prob rows q d then (d, prob rows q d) else acc)
    ("", -1)).1

end OldBayes

namespace NaiveBayes

/-! ### Counting lemmas: the source's folds versus declarative counts -/

lemma foldl_add_card (l : List (Finset String)) (n : ℕ) :
    l.foldl (fun acc symptoms => acc + symptoms.card) n
      = n + (l.map Finset.card).sum := by
  induction l generalizing n with
  | nil => simp
  | cons a t ih => simp [ih]; omega

lemma numSymptoms_eq_sum (rows : List (String × Finset String)) (d : String) :
    numSymptoms rows d = ((diseasesMap rows d).map Finset.card).sum := by
  simp [numSymptoms, foldl_add_card]

lemma foldl_count_mem (s : String) (l : List (Finset String)) (n : ℕ) :
    l.foldl (fun acc symptoms => if s ∈ symptoms then acc + 1 else acc) n
      = n + (l.filter (fun symptoms => s ∈ symptoms)).length := by
  induction l generalizing n with
  | nil => simp
  | cons a t ih =>
    by_cases h : s ∈ a <;> simp [List.filter_cons, h, ih] <;> omega


lemma numSymptom_eq_filter_length (rows : List (String × Finset String))
    (d s : String) :
    numSymptom rows d s
      = ((diseasesMap rows d).filter (fun symptoms => s ∈ symptoms)).length := by
  simp [numSymptom, foldl_count_mem]

/-- Training rows used by several witnesses below. -/
def rows1 : List (String × Finset String) := [("Flu", {"Cough"})]

/-- C1: for a non-empty training set, for a disease `d` of the model and a
symptom `s` of the vocabulary, the fitted likelihood equals
(rows of `d` containing `s` + 1) / (sum of the symptom-set sizes of `d`'s
rows + number of distinct symptoms in the whole training set). -/
theorem beta_laplace_formula (rows : List (String × Finset String))
    (d s : String) (hrows : rows ≠ []) (hd : d ∈ diseaseLabels rows)
    (hs : s ∈ allSymptoms rows) :
    beta rows d s =
      ((((diseasesMap rows d).filter (fun symptoms => s ∈ symptoms)).length : ℚ) + 1)
        / ((((diseasesMap rows d).map Finset.card).sum : ℚ)
            + ((allSymptoms rows).card : ℚ)) := by
  rw [beta, numSymptom_eq_filter_length, numSymptoms_eq_sum]

theorem beta_laplace_formula_witness :
    (rows1 ≠ [] ∧ "Flu" ∈ diseaseLabels rows1 ∧ "Cough" ∈ allSymptoms rows1)
    ∧ beta rows1 "Flu" "Cough" =
      ((((diseasesMap rows1 "Flu").filter (fun symptoms => "Cough" ∈ symptoms)).length : ℚ) + 1)
        / ((((diseasesMap rows1 "Flu").map Finset.card).sum : ℚ)
            + ((allSymptoms rows1).card : ℚ)) :=
  ⟨⟨by decide, by decide, by decide⟩,
    beta_laplace_formula rows1 "Flu" "Cough" (by decide) (by decide) (by decide)⟩

lemma filter_length_le_sum_card (s : String) (l : List (Finset String)) :
    (l.filter (fun symptoms => s ∈ symptoms)).length ≤ (l.map Finset.card).sum := by
  induction l with
  | nil => simp
  | cons a t ih =>
    by_cases h : s ∈ a
    · have h1 : 1 ≤ a.card := Finset.card_pos.mpr ⟨s, h⟩
      simp [List.filter_cons, h]
      omega
    · simp [List.filter_cons, h]
      omega

/-- C3: for a fitted model from a non-empty training set, every
(disease, vocabulary symptom) pair has `0 < beta ≤ 1`; strict positivity in
particular covers symptoms never seen with the disease. -/
theorem beta_pos_and_le_one (rows : List (String × Finset String))
    (d s : String) (hrows : rows ≠ []) (hd : d ∈ diseaseLabels rows)
    (hs : s ∈ allSymptoms rows) :
    0 < beta rows d s ∧ beta rows d s ≤ 1 := by
  have hV : 1 ≤ (allSymptoms rows).card := Finset.card_pos.mpr ⟨s, hs⟩
  have hdenom : (0 : ℚ) < (numSymptoms rows d : ℚ) + ((allSymptoms rows).card : ℚ) := by
    have : (0 : ℚ) < ((allSymptoms rows).card : ℚ) := by exact_mod_cast hV
    have h0 : (0 : ℚ) ≤ (numSymptoms rows d : ℚ) := by positivity
    linarith
  constructor
  · apply div_pos _ hdenom
    positivity
  · rw [beta, div_le_one hdenom]
    have hcm : numSymptom rows d s ≤ numSymptoms rows d := by
      rw [numSymptom_eq_filter_length, numSymptoms_eq_sum]
      exact filter_length_le_sum_card s (diseasesMap rows d)
    have : numSymptom rows d s + 1 ≤ numSymptoms rows d + (allSymptoms rows).card := by
      omega
    exact_mod_cast this

theorem beta_pos_and_le_one_witness :
    (rows1 ≠ [] ∧ "Flu" ∈ diseaseLabels rows1 ∧ "Cough" ∈ allSymptoms rows1)
    ∧ (0 < beta rows1 "Flu" "Cough" ∧ beta rows1 "Flu" "Cough" ≤ 1) :=
  ⟨⟨by decide, by decide, by decide⟩,
    beta_pos_and_le_one rows1 "Flu" "Cough" (by decide) (by decide) (by decide)⟩

/-- C4 is falsified by the code: `new` on zero records returns a fitted
model (with no diseases), not an error. -/
theorem new_empty_training_succeeds_cex :
    new ([] : List Row) = some [] ∧ new ([] : List Row) ≠ none :=
  ⟨rfl, by decide⟩

/-- C4 (amended): training on an input with zero rows is not an error: the
trainer succeeds and returns a fitted model with zero diseases and an
empty vocabulary. -/
theorem new_empty_training_amended :
    new ([] : List Row) = some []
    ∧ diseaseLabels [] = [] ∧ allSymptoms [] = ∅ :=
  ⟨rfl, rfl, rfl⟩

/-- C8 is falsified by the code: the emptiness test happens before the
trim, so a whitespace-only cell is kept and contributes the empty-string
symptom, unlike the trim-first normalization the claim describes. -/
theorem whitespace_cell_cex :
    trainRowSymptoms [" "] = {""}
    ∧ specRowSymptoms [" "] = (∅ : Finset String)
    ∧ trainRowSymptoms [" "] ≠ specRowSymptoms [" "] :=
  ⟨by decide, by decide, by decide⟩

/-- C8 (amended): both phases normalize a row identically, by dropping the
cells that are empty as given, trimming the remaining cells, and
deduplicating; a whitespace-only cell therefore contributes the
empty-string symptom instead of being dropped. -/
theorem row_normalization_amended :
    (∀ cells : List String, trainRowSymptoms cells = queryRowSymptoms cells)
    ∧ (∀ (cells : List String) (s : String),
        s ∈ trainRowSymptoms cells ↔ ∃ c ∈ cells, ¬ c = "" ∧ strTrim c = s)
    ∧ "" ∈ trainRowSymptoms [" "] := by
  refine ⟨fun cells => rfl, fun cells s => ?_, by decide⟩
  simp [trainRowSymptoms, List.mem_filter]
  tauto

/-- C10: the zero-disease model that an empty training input yields
predicts totally: every query row gets the label `""`, and the output
rows carry that empty label. -/
theorem predict_zero_disease_model_total :
    new ([] : List Row) = some []
    ∧ (∀ q : Finset String, predictOne [] [] q = some "")
    ∧ (∀ queries : List Row,
        predict [] [] queries
          = some (writeResults 0 (List.replicate queries.length ""))) := by
  refine ⟨rfl, fun q => rfl, fun queries => ?_⟩
  have h : predictAll [] [] queries = some (List.replicate queries.length "") := by
    induction queries with
    | nil => rfl
    | cons r t ih => simp [predictAll, ih, List.replicate_succ]; rfl
  simp [predict, h]

end NaiveBayes

namespace NaiveBayes

/-! ### Priors -/

lemma diseasesMap_length_eq_count (rows : List (String × Finset String))
    (d : String) :
    (diseasesMap rows d).length = (rows.map Prod.fst).count d := by
  induction rows with
  | nil => simp [diseasesMap]
  | cons r t ih =>
    by_cases h : r.1 = d <;>
      simp [diseasesMap, List.filter_cons, List.count_cons, h, ← ih,
        diseasesMap] <;> omega

lemma sum_map_div (l : List String) (f : String → ℚ) (c : ℚ) :
    (l.map (fun x => f x / c)).sum = (l.map f).sum / c := by
  induction l with
  | nil => simp
  | cons a t ih => simp [ih, div_add_div_same]

/-- C2: for a non-empty training set, each fitted prior is the count of
that disease's rows over the total row count, and the priors over the
model's diseases sum to 1 exactly, hence within tolerance 1e-9. -/
theorem pi_formula_and_priors_sum_one (rows : List (String × Finset String))
    (order : List String) (hrows : rows ≠ [])
    (horder : order.Perm (diseaseLabels rows)) :
    (∀ d ∈ order,
      pi rows d = (((rows.map Prod.fst).count d : ℚ)) / ((rows.length : ℚ)))
    ∧ (order.map (pi rows)).sum = 1
    ∧ |(order.map (pi rows)).sum - 1| ≤ 1 / 1000000000 := by
  have hform : ∀ d,
      pi rows d = (((rows.map Prod.fst).count d : ℚ)) / ((rows.length : ℚ)) := by
    intro d
    rw [pi, numRecords, diseasesMap_length_eq_count]
  have hN : ((rows.length : ℚ)) ≠ 0 := by
    have h0 : rows.length ≠ 0 := by
      cases rows with
      | nil => exact absurd rfl hrows
      | cons a t => simp
    exact_mod_cast h0
  have hsum : (order.map (pi rows)).sum = 1 := by
    have hperm : (order.map (pi rows)).Perm ((diseaseLabels rows).map (pi rows)) :=
      horder.map _
    rw [hperm.sum_eq]
    have hmap : (diseaseLabels rows).map (pi rows)
        = (diseaseLabels rows).map
            (fun d => (((rows.map Prod.fst).count d : ℚ)) / ((rows.length : ℚ))) :=
      List.map_congr_left (fun d _ => hform d)
    rw [hmap, sum_map_div]
    have hcast : ((diseaseLabels rows).map
          (fun d => (((rows.map Prod.fst).count d : ℚ)))).sum
        = ((((diseaseLabels rows).map
            (fun d => (rows.map Prod.fst).count d)).sum : ℕ) : ℚ) := by
      rw [Nat.cast_list_sum, List.map_map]
      rfl
    rw [hcast,
      show ((diseaseLabels rows).map (fun d => (rows.map Prod.fst).count d)).sum
          = (rows.map Prod.fst).length from
        List.sum_map_count_dedup_eq_length _,
      List.length_map]
    exact div_self hN
  exact ⟨fun d _ => hform d, hsum, by rw [hsum]; norm_num⟩

theorem pi_formula_and_priors_sum_one_witness :
    (rows1 ≠ [] ∧ (["Flu"] : List String).Perm (diseaseLabels rows1))
    ∧ ((∀ d ∈ (["Flu"] : List String),
          pi rows1 d = (((rows1.map Prod.fst).count d : ℚ)) / ((rows1.length : ℚ)))
      ∧ ((["Flu"] : List String).map (pi rows1)).sum = 1
      ∧ |((["Flu"] : List String).map (pi rows1)).sum - 1| ≤ 1 / 1000000000) :=
  ⟨⟨by decide, by decide⟩,
    pi_formula_and_priors_sum_one rows1 ["Flu"] (by decide) (by decide)⟩

/-! ### Prediction -/

lemma score_nonneg (rows : List (String × Finset String)) (q : Finset String)
    (d : String) : 0 ≤ score rows q d := by
  rw [score]
  apply mul_nonneg
  · rw [pi]; positivity
  · rw [productBetas]
    apply Finset.prod_nonneg
    intro s _
    rw [beta]; positivity

lemma predictFold_total (rows : List (String × Finset String))
    (q : Finset String) (hq : q ⊆ allSymptoms rows) :
    ∀ (l : List String) (acc : String × ℚ),
      ∃ p, predictFold rows q l acc = some p := by
  intro l
  induction l with
  | nil => exact fun acc => ⟨acc, rfl⟩
  | cons d rest ih =>
    intro acc
    obtain ⟨bd, bs⟩ := acc
    obtain ⟨p, hp⟩ :=
      ih (if bs < score rows q d then (d, score rows q d) else (bd, bs))
    refine ⟨p, ?_⟩
    simp only [predictFold]
    rw [if_pos hq]
    exact hp

/-- C5 is falsified at the zero-disease fitted model: its vocabulary is
empty, so the query symptom "X" is unknown, yet `predict_one` succeeds. -/
theorem unknown_symptom_zero_disease_cex :
    new ([] : List Row) = some []
    ∧ ¬ queryRowSymptoms ["X"] ⊆ allSymptoms []
    ∧ predictOne [] [] (queryRowSymptoms ["X"]) = some "" :=
  ⟨rfl, by decide, rfl⟩

/-- C5 (amended): for a fitted model with at least one disease, prediction
on a query containing an out-of-vocabulary token fails (the beta-table
`unwrap` panic, modelled as `none`), and prediction on a query whose
symptoms all lie in the vocabulary succeeds. -/
theorem predict_unknown_symptom_amended (rows : List (String × Finset String))
    (order : List String) (q : Finset String) (hne : order ≠ [])
    (horder : order.Perm (diseaseLabels rows)) :
    (¬ q ⊆ allSymptoms rows → predictOne rows order q = none)
    ∧ (q ⊆ allSymptoms rows → ∃ r, predictOne rows order q = some r) := by
  constructor
  · intro hq
    cases order with
    | nil => exact absurd rfl hne
    | cons d rest =>
      rw [predictOne]
      simp only [predictFold]
      rw [if_neg hq]
      rfl
  · intro hq
    obtain ⟨p, hp⟩ := predictFold_total rows q hq order ("", -1)
    exact ⟨p.1, by rw [predictOne, hp]; rfl⟩

theorem predict_unknown_symptom_amended_witness :
    ((["Flu"] : List String) ≠ []
      ∧ (["Flu"] : List String).Perm (diseaseLabels rows1))
    ∧ ((¬ queryRowSymptoms ["X"] ⊆ allSymptoms rows1 →
          predictOne rows1 ["Flu"] (queryRowSymptoms ["X"]) = none)
      ∧ (queryRowSymptoms ["X"] ⊆ allSymptoms rows1 →
          ∃ r, predictOne rows1 ["Flu"] (queryRowSymptoms ["X"]) = some r)) :=
  ⟨⟨by decide, by decide⟩,
    predict_unknown_symptom_amended rows1 ["Flu"] (queryRowSymptoms ["X"])
      (by decide) (by decide)⟩

lemma predictFold_first_argmax (rows : List (String × Finset String))
    (q : Finset String) (hq : q ⊆ allSymptoms rows) :
    ∀ (l : List String) (b : String),
      ∃ r l1 l2,
        predictFold rows q l (b, score rows q b) = some (r, score rows q r)
        ∧ b :: l = l1 ++ r :: l2
        ∧ (∀ d ∈ l1, score rows q d < score rows q r)
        ∧ (∀ d ∈ l2, score rows q d ≤ score rows q r) := by
  intro l
  induction l with
  | nil =>
    intro b
    exact ⟨b, [], [], rfl, rfl, by simp, by simp⟩
  | cons d rest ih =>
    intro b
    by_cases hlt : score rows q b < score rows q d
    · obtain ⟨r, l1, l2, hfold, hsplit, hl1, hl2⟩ := ih d
      refine ⟨r, b :: l1, l2, ?_, ?_, ?_, hl2⟩
      · simp only [predictFold]
        rw [if_pos hq, if_pos hlt]
        exact hfold
      · rw [List.cons_append, ← hsplit]
      · intro x hx
        rcases List.mem_cons.mp hx with hxb | hxl1
        · subst hxb
          have hdr : score rows q d ≤ score rows q r := by
            cases l1 with
            | nil =>
              have hd : d = r ∧ rest = l2 := by
                have h := hsplit; simp at h; exact h
              rw [hd.1]
            | cons a t =>
              have had : a = d := by
                have h := hsplit; simp at h; exact h.1.symm
              refine le_of_lt (hl1 d ?_)
              rw [← had]
              exact List.mem_cons_self a t
          exact lt_of_lt_of_le hlt hdr
        · exact hl1 x hxl1
    · obtain ⟨r, l1, l2, hfold, hsplit, hl1, hl2⟩ := ih b
      cases l1 with
      | nil =>
        have hrb : b = r ∧ rest = l2 := by
          have h := hsplit; simp at h; exact h
        refine ⟨r, [], d :: l2, ?_, ?_, by simp, ?_⟩
        · simp only [predictFold]
          rw [if_pos hq, if_neg hlt]
          exact hfold
        · simp [hrb.1, hrb.2]
        · intro x hx
          rcases List.mem_cons.mp hx with hxd | hxl2
          · subst hxd
            rw [← hrb.1]
            exact not_lt.mp hlt
          · exact hl2 x hxl2
      | cons a t =>
        have hab : a = b ∧ rest = t ++ r :: l2 := by
          have h := hsplit; simp at h
          exact ⟨h.1.symm, h.2⟩
        refine ⟨r, b :: d :: t, l2, ?_, ?_, ?_, hl2⟩
        · simp only [predictFold]
          rw [if_pos hq, if_neg hlt]
          exact hfold
        · simp [hab.2]
        · intro x hx
          have hbr : score rows q b < score rows q r := by
            apply hl1
            rw [← hab.1]
            exact List.mem_cons_self a t
          rcases List.mem_cons.mp hx with hxb | hx2
          · subst hxb; exact hbr
          · rcases List.mem_cons.mp hx2 with hxd | hxt
            · subst hxd
              exact lt_of_le_of_lt (not_lt.mp hlt) hbr
            · exact hl1 x (List.mem_cons_of_mem a hxt)

/-- C6: with at least one disease and an in-vocabulary query, `predict_one`
returns the first disease in iteration order whose score
`pi(d) * prod of betas` strictly exceeds every earlier disease's score and
is at least every later one's: the strict-greater replacement rule keeps
the earlier-iterated disease among ties. -/
theorem predictOne_first_argmax (rows : List (String × Finset String))
    (order : List String) (q : Finset String) (hne : order ≠ [])
    (horder : order.Perm (diseaseLabels rows)) (hq : q ⊆ allSymptoms rows) :
    ∃ r l1 l2,
      predictOne rows order q = some r
      ∧ order = l1 ++ r :: l2
      ∧ (∀ d ∈ l1, score rows q d < score rows q r)
      ∧ (∀ d ∈ l2, score rows q d ≤ score rows q r) := by
  cases order with
  | nil => exact absurd rfl hne
  | cons d0 rest =>
    obtain ⟨r, l1, l2, hfold, hsplit, hl1, hl2⟩ :=
      predictFold_first_argmax rows q hq rest d0
    refine ⟨r, l1, l2, ?_, hsplit, hl1, hl2⟩
    rw [predictOne]
    simp only [predictFold]
    rw [if_pos hq,
      if_pos (lt_of_lt_of_le (by norm_num) (score_nonneg rows q d0)), hfold]
    rfl

theorem predictOne_first_argmax_witness :
    ((["Flu"] : List String) ≠ []
      ∧ (["Flu"] : List String).Perm (diseaseLabels rows1)
      ∧ ({"Cough"} : Finset String) ⊆ allSymptoms rows1)
    ∧ (∃ r l1 l2,
        predictOne rows1 ["Flu"] {"Cough"} = some r
        ∧ (["Flu"] : List String) = l1 ++ r :: l2
        ∧ (∀ d ∈ l1, score rows1 {"Cough"} d < score rows1 {"Cough"} r)
        ∧ (∀ d ∈ l2, score rows1 {"Cough"} d ≤ score rows1 {"Cough"} r)) :=
  ⟨⟨by decide, by decide, by decide⟩,
    predictOne_first_argmax rows1 ["Flu"] {"Cough"} (by decide) (by decide)
      (by decide)⟩

end NaiveBayes

namespace NaiveBayes

/-! ### Scenario B (spec section 8) -/

/-- Scenario B training records. -/
def input7 : List Row :=
  [["Flu", "Cough", "Fever"], ["Cold", "Cough"], ["Cold", "Cough"]]

/-- The rows `new` collects from `input7`. -/
def rows7 : List (String × Finset String) :=
  [("Flu", {"Cough", "Fever"}), ("Cold", {"Cough"}), ("Cold", {"Cough"})]

/-- The scenario B query symptom set. -/
def q7 : Finset String := queryRowSymptoms ["Fever"]

lemma score7_Flu : score rows7 q7 "Flu" = 1 / 6 := by
  rw [score, productBetas, show q7 = {"Fever"} from by decide,
    Finset.prod_singleton, pi, beta,
    show numSymptom rows7 "Flu" "Fever" = 1 from by decide,
    show numSymptoms rows7 "Flu" = 2 from by decide,
    show (allSymptoms rows7).card = 2 from by decide,
    show (diseasesMap rows7 "Flu").length = 1 from by decide,
    show numRecords rows7 = 3 from by decide]
  norm_num

lemma score7_Cold : score rows7 q7 "Cold" = 1 / 6 := by
  rw [score, productBetas, show q7 = {"Fever"} from by decide,
    Finset.prod_singleton, pi, beta,
    show numSymptom rows7 "Cold" "Fever" = 0 from by decide,
    show numSymptoms rows7 "Cold" = 2 from by decide,
    show (allSymptoms rows7).card = 2 from by decide,
    show (diseasesMap rows7 "Cold").length = 2 from by decide,
    show numRecords rows7 = 3 from by decide]
  norm_num

lemma predictFold_cons (rows : List (String × Finset String))
    (q : Finset String) (d : String) (rest : List String) (bd : String)
    (bs : ℚ) :
    predictFold rows q (d :: rest) (bd, bs)
      = if q ⊆ allSymptoms rows then
          predictFold rows q rest
            (if bs < score rows q d then (d, score rows q d) else (bd, bs))
        else none := rfl

lemma predictFold_nil (rows : List (String × Finset String))
    (q : Finset String) (acc : String × ℚ) :
    predictFold rows q [] acc = some acc := rfl

/-- C7 is falsified by the code: on scenario B the two scores are equal
(1/6 each), so Flu does not score strictly higher than Cold, and under the
iteration order that visits Cold first the prediction is Cold, not Flu. -/
theorem scenarioB_tie_cex :
    new input7 = some rows7
    ∧ ¬ score rows7 q7 "Cold" < score rows7 q7 "Flu"
    ∧ predictOne rows7 ["Cold", "Flu"] q7 = some "Cold" := by
  have hsub : q7 ⊆ allSymptoms rows7 := by decide
  have hA : ((-1 : ℚ)) < score rows7 q7 "Cold" := by
    rw [score7_Cold]; norm_num
  have hB : ¬ score rows7 q7 "Cold" < score rows7 q7 "Flu" := by
    rw [score7_Cold, score7_Flu]; norm_num
  refine ⟨by decide, ?_, ?_⟩
  · rw [score7_Flu, score7_Cold]
    norm_num
  · rw [predictOne, predictFold_cons, if_pos hsub, if_pos hA,
      predictFold_cons, if_pos hsub, if_neg hB, predictFold_nil]
    rfl

/-- C7 (amended): on scenario B the fitted model gives the query [Fever]
equal scores of 1/6 for Flu and Cold, so the predicted label is whichever
of the two diseases is iterated first, Flu only when Flu comes first. -/
theorem scenarioB_equal_scores_amended :
    new input7 = some rows7
    ∧ score rows7 q7 "Flu" = 1 / 6
    ∧ score rows7 q7 "Cold" = 1 / 6
    ∧ predictOne rows7 ["Flu", "Cold"] q7 = some "Flu"
    ∧ predictOne rows7 ["Cold", "Flu"] q7 = some "Cold" := by
  have hsub : q7 ⊆ allSymptoms rows7 := by decide
  have hA : ((-1 : ℚ)) < score rows7 q7 "Cold" := by
    rw [score7_Cold]; norm_num
  have hB : ¬ score rows7 q7 "Cold" < score rows7 q7 "Flu" := by
    rw [score7_Cold, score7_Flu]; norm_num
  have hC : ((-1 : ℚ)) < score rows7 q7 "Flu" := by
    rw [score7_Flu]; norm_num
  have hD : ¬ score rows7 q7 "Flu" < score rows7 q7 "Cold" := by
    rw [score7_Cold, score7_Flu]; norm_num
  refine ⟨by decide, score7_Flu, score7_Cold, ?_, ?_⟩
  · rw [predictOne, predictFold_cons, if_pos hsub, if_pos hC,
      predictFold_cons, if_pos hsub, if_neg hD, predictFold_nil]
    rfl
  · rw [predictOne, predictFold_cons, if_pos hsub, if_pos hA,
      predictFold_cons, if_pos hsub, if_neg hB, predictFold_nil]
    rfl

/-! ### The dataset separating the two classifiers -/

/-- Training records on which the two formulations disagree. -/
def input9 : List Row :=
  [["Flu", "Cough", "Fever"], ["Cold", "Cough"], ["Cold", "Cough"],
    ["Cold", "Cough"]]

/-- The rows `new` collects from `input9`. -/
def rows9 : List (String × Finset String) :=
  [("Flu", {"Cough", "Fever"}), ("Cold", {"Cough"}), ("Cold", {"Cough"}),
    ("Cold", {"Cough"})]

/-- The separating query symptom set. -/
def q9 : Finset String := queryRowSymptoms ["Fever"]

lemma score9_Flu : score rows9 q9 "Flu" = 1 / 8 := by
  rw [score, productBetas, show q9 = {"Fever"} from by decide,
    Finset.prod_singleton, pi, beta,
    show numSymptom rows9 "Flu" "Fever" = 1 from by decide,
    show numSymptoms rows9 "Flu" = 2 from by decide,
    show (allSymptoms rows9).card = 2 from by decide,
    show (diseasesMap rows9 "Flu").length = 1 from by decide,
    show numRecords rows9 = 4 from by decide]
  norm_num

lemma score9_Cold : score rows9 q9 "Cold" = 3 / 20 := by
  rw [score, productBetas, show q9 = {"Fever"} from by decide,
    Finset.prod_singleton, pi, beta,
    show numSymptom rows9 "Cold" "Fever" = 0 from by decide,
    show numSymptoms rows9 "Cold" = 3 from by decide,
    show (allSymptoms rows9).card = 2 from by decide,
    show (diseasesMap rows9 "Cold").length = 3 from by decide,
    show numRecords rows9 = 4 from by decide]
  norm_num

end NaiveBayes

namespace OldBayes

lemma totalEntries9 : totalEntries NaiveBayes.rows9 = 4 := by
  rw [totalEntries,
    show NaiveBayes.diseaseLabels NaiveBayes.rows9 = ["Flu", "Cold"] from
      by decide]
  simp only [List.map_cons, List.map_nil, List.sum_cons, List.sum_nil]
  rw [show (NaiveBayes.diseasesMap NaiveBayes.rows9 "Flu").length = 1 from
      by decide,
    show (NaiveBayes.diseasesMap NaiveBayes.rows9 "Cold").length = 3 from
      by decide]
  norm_num

lemma symptomOrder9 : symptomOrder NaiveBayes.rows9 = ["Cough", "Fever"] := by
  rw [symptomOrder]
  have hle : ("Cough" : String) ≤ "Fever" := by
    rw [String.le_iff_toList_le]
    decide
  refine List.eq_of_perm_of_sorted ?_ (Finset.sort_sorted _ _) ?_
  · refine List.perm_of_nodup_nodup_toFinset_eq (Finset.sort_nodup _ _)
      (by decide) ?_
    rw [Finset.sort_toFinset]
    decide
  · simp only [List.sorted_cons, List.mem_singleton, forall_eq]
    exact ⟨hle, by simp, by simp⟩

lemma prob9_Flu : prob NaiveBayes.rows9 NaiveBayes.q9 "Flu" = 1 / 4 := by
  rw [prob, diseaseProb, totalEntries9, symptomOrder9]
  simp only [List.foldl_cons, List.foldl_nil]
  rw [if_neg (show ¬ "Cough" ∈ NaiveBayes.q9 from by decide),
    if_pos (show "Fever" ∈ NaiveBayes.q9 from by decide),
    show symptomCount NaiveBayes.rows9 "Flu" NaiveBayes.q9 "Fever" = 1 from
      by decide,
    show (NaiveBayes.diseasesMap NaiveBayes.rows9 "Flu").length = 1 from
      by decide]
  norm_num

lemma prob9_Cold : prob NaiveBayes.rows9 NaiveBayes.q9 "Cold" = 0 := by
  rw [prob, diseaseProb, totalEntries9, symptomOrder9]
  simp only [List.foldl_cons, List.foldl_nil]
  rw [if_neg (show ¬ "Cough" ∈ NaiveBayes.q9 from by decide),
    if_pos (show "Fever" ∈ NaiveBayes.q9 from by decide),
    show symptomCount NaiveBayes.rows9 "Cold" NaiveBayes.q9 "Fever" = 0 from
      by decide,
    show (NaiveBayes.diseasesMap NaiveBayes.rows9 "Cold").length = 3 from
      by decide]
  norm_num

end OldBayes

namespace OldBayes

lemma predictOne_fold_cons (rows : List (String × Finset String))
    (q : Finset String) (d : String) (rest : List String) (bd : String)
    (bs : ℚ) :
    List.foldl
        (fun acc x => if acc.2 < prob rows q x then (x, prob rows q x) else acc)
        (bd, bs) (d :: rest)
      = List.foldl
          (fun acc x => if acc.2 < prob rows q x then (x, prob rows q x) else acc)
          (if bs < prob rows q d then (d, prob rows q d) else (bd, bs))
          rest := rfl

lemma predictOne_fold_nil (rows : List (String × Finset String))
    (q : Finset String) (acc : String × ℚ) :
    List.foldl
        (fun acc x => if acc.2 < prob rows q x then (x, prob rows q x) else acc)
        acc []
      = acc := rfl

end OldBayes

/-- C9: the smoothed independent-likelihood classifier (bayes.rs) and the
unsmoothed boolean-vector classifier (oldbayes.rs) disagree: trained on the
same four records, the query [Fever] is labeled Cold by the former and Flu
by the latter, under either iteration order of the two diseases. -/
theorem models_diverge :
    NaiveBayes.new NaiveBayes.input9 = some NaiveBayes.rows9
    ∧ NaiveBayes.predictOne NaiveBayes.rows9 ["Flu", "Cold"] NaiveBayes.q9
        = some "Cold"
    ∧ NaiveBayes.predictOne NaiveBayes.rows9 ["Cold", "Flu"] NaiveBayes.q9
        = some "Cold"
    ∧ OldBayes.predictOne NaiveBayes.rows9 ["Flu", "Cold"] NaiveBayes.q9
        = "Flu"
    ∧ OldBayes.predictOne NaiveBayes.rows9 ["Cold", "Flu"] NaiveBayes.q9
        = "Flu" := by
  have hsub : NaiveBayes.q9 ⊆ NaiveBayes.allSymptoms NaiveBayes.rows9 := by
    decide
  have h1 : ((-1 : ℚ)) < NaiveBayes.score NaiveBayes.rows9 NaiveBayes.q9 "Flu" := by
    rw [NaiveBayes.score9_Flu]; norm_num
  have h2 : NaiveBayes.score NaiveBayes.rows9 NaiveBayes.q9 "Flu"
      < NaiveBayes.score NaiveBayes.rows9 NaiveBayes.q9 "Cold" := by
    rw [NaiveBayes.score9_Flu, NaiveBayes.score9_Cold]; norm_num
  have h3 : ((-1 : ℚ)) < NaiveBayes.score NaiveBayes.rows9 NaiveBayes.q9 "Cold" := by
    rw [NaiveBayes.score9_Cold]; norm_num
  have h4 : ¬ NaiveBayes.score NaiveBayes.rows9 NaiveBayes.q9 "Cold"
      < NaiveBayes.score NaiveBayes.rows9 NaiveBayes.q9 "Flu" := by
    rw [NaiveBayes.score9_Flu, NaiveBayes.score9_Cold]; norm_num
  have h5 : ((-1 : ℚ)) < OldBayes.prob NaiveBayes.rows9 NaiveBayes.q9 "Flu" := by
    rw [OldBayes.prob9_Flu]; norm_num
  have h6 : ¬ OldBayes.prob NaiveBayes.rows9 NaiveBayes.q9 "Flu"
      < OldBayes.prob NaiveBayes.rows9 NaiveBayes.q9 "Cold" := by
    rw [OldBayes.prob9_Flu, OldBayes.prob9_Cold]; norm_num
  have h7 : ((-1 : ℚ)) < OldBayes.prob NaiveBayes.rows9 NaiveBayes.q9 "Cold" := by
    rw [OldBayes.prob9_Cold]; norm_num
  have h8 : OldBayes.prob NaiveBayes.rows9 NaiveBayes.q9 "Cold"
      < OldBayes.prob NaiveBayes.rows9 NaiveBayes.q9 "Flu" := by
    rw [OldBayes.prob9_Flu, OldBayes.prob9_Cold]; norm_num
  refine ⟨by decide, ?_, ?_, ?_, ?_⟩
  · rw [NaiveBayes.predictOne, NaiveBayes.predictFold_cons, if_pos hsub,
      if_pos h1, NaiveBayes.predictFold_cons, if_pos hsub, if_pos h2,
      NaiveBayes.predictFold_nil]
    rfl
  · rw [NaiveBayes.predictOne, NaiveBayes.predictFold_cons, if_pos hsub,
      if_pos h3, NaiveBayes.predictFold_cons, if_pos hsub, if_neg h4,
      NaiveBayes.predictFold_nil]
    rfl
  · rw [OldBayes.predictOne, OldBayes.predictOne_fold_cons, if_pos h5,
      OldBayes.predictOne_fold_cons, if_neg h6, OldBayes.predictOne_fold_nil]
  · rw [OldBayes.predictOne, OldBayes.predictOne_fold_cons, if_pos h7,
      OldBayes.predictOne_fold_cons, if_pos h8, OldBayes.predictOne_fold_nil]
